import Mathlib

/-
Shallow embedding of the stock-price linear-regression script
(stock_price_lr.py, the single source file of this repository).

Modelling conventions:
  * prices and the test fraction are exact rationals;
  * a pandas DataFrame of OHLCV rows is a list of records in date order;
  * a cell that may be NaN is an Option value, and dropna keeps only rows
    whose cells are all present;
  * the yfinance network call is modelled by passing the rows the provider
    would return as an explicit argument of download_data;
  * the joblib store (the filesystem) is an association list from paths to
    deserialized object graphs.
-/

set_option linter.unusedVariables false

deriving instance DecidableEq for Except

namespace StockLR

/-- One row of the table returned by the market-data provider after
reset_index, before dropna: each OHLCV cell may be missing (NaN). The
Date column comes from the index and is always present. -/
structure RawRecord where
  date : ℕ
  opn : Option ℚ
  high : Option ℚ
  low : Option ℚ
  close : Option ℚ
  volume : Option ℚ
deriving DecidableEq

/-- A Price Record: one fully-present row per trading day. -/
structure PriceRecord where
  date : ℕ
  opn : ℚ
  high : ℚ
  low : ℚ
  close : ℚ
  volume : ℚ
deriving DecidableEq

/-- The row filter performed by df.dropna(): a row survives exactly when
every cell is present. -/
def dropnaRow (r : RawRecord) : Option PriceRecord :=
  match r.opn, r.high, r.low, r.close, r.volume with
  | some o, some h, some l, some c, some v => some ⟨r.date, o, h, l, c, v⟩
  | _, _, _, _, _ => none

/-- download_data(ticker, period): yf.download fetches the provider rows
(passed here as the argument), reset_index brings Date into a column, and
dropna removes incomplete rows. The function has no empty-result check and
never raises on an empty table. -/
def download_data (provider : List RawRecord) : List PriceRecord :=
  provider.filterMap dropnaRow

/-- A Feature Row: Day is the 0-based position assigned by
np.arange(len(df)), the three lag columns are the shifted close prices,
close is the target (current close). -/
structure FeatureRow where
  date : ℕ
  close : ℚ
  day : ℕ
  lag1 : ℚ
  lag2 : ℚ
  lag3 : ℚ
deriving DecidableEq

/-- The cell of column Close.shift(lag) at row i: present exactly when
lag ≤ i, in which case it is the close price of row i - lag. -/
def lagClose (rows : List PriceRecord) (lag i : ℕ) : Option ℚ :=
  if lag ≤ i then (rows[i - lag]?).map PriceRecord.close else none

/-- The i-th row of the frame built by make_features, before knowing
whether dropna keeps it: some exactly when every lag cell is present. -/
def featureAt (rows : List PriceRecord) (i : ℕ) : Option FeatureRow :=
  match rows[i]?, lagClose rows 1 i, lagClose rows 2 i, lagClose rows 3 i with
  | some r, some l1, some l2, some l3 => some ⟨r.date, r.close, i, l1, l2, l3⟩
  | _, _, _, _ => none

/-- make_features(df): Day := np.arange(len(df)); Close_lag1..3 :=
Close.shift(1..3); dropna drops every row with a missing lag cell. -/
def make_features (rows : List PriceRecord) : List FeatureRow :=
  (List.range rows.length).filterMap (featureAt rows)

/-- The date of row i of a price table, defaulting to 0 out of range. -/
def dateAt (rows : List PriceRecord) (i : ℕ) : ℕ :=
  ((rows[i]?).map PriceRecord.date).getD 0

/-- The close price of row i of a price table, defaulting to 0 out of
range. -/
def closeAt (rows : List PriceRecord) (i : ℕ) : ℚ :=
  ((rows[i]?).map PriceRecord.close).getD 0

/-- Strict chronological order of a price table. -/
abbrev chronoSorted (rows : List PriceRecord) : Prop :=
  List.Pairwise (fun a b => a.date < b.date) rows

/-- Strict chronological order of a feature table. -/
abbrev frSorted (rows : List FeatureRow) : Prop :=
  List.Pairwise (fun a b => a.date < b.date) rows

theorem featureAt_eq_none (rows : List PriceRecord) (i : ℕ) (h : i < 3) :
    featureAt rows i = none := by
  have h3 : lagClose rows 3 i = none := by
    unfold lagClose
    rw [if_neg (by omega)]
  unfold featureAt
  rw [h3]
  cases rows[i]? <;> cases lagClose rows 1 i <;> cases lagClose rows 2 i <;> rfl

theorem featureAt_eq_some (rows : List PriceRecord) (i : ℕ)
    (h3 : 3 ≤ i) (hi : i < rows.length) :
    featureAt rows i =
      some ⟨dateAt rows i, closeAt rows i, i,
            closeAt rows (i - 1), closeAt rows (i - 2), closeAt rows (i - 3)⟩ := by
  have e0 : rows[i]? = some (rows[i]) := List.getElem?_eq_getElem hi
  have h1 : i - 1 < rows.length := by omega
  have h2 : i - 2 < rows.length := by omega
  have h3l : i - 3 < rows.length := by omega
  have e1 : rows[i - 1]? = some (rows[i - 1]) := List.getElem?_eq_getElem h1
  have e2 : rows[i - 2]? = some (rows[i - 2]) := List.getElem?_eq_getElem h2
  have e3 : rows[i - 3]? = some (rows[i - 3]) := List.getElem?_eq_getElem h3l
  unfold featureAt lagClose
  rw [if_pos (by omega), if_pos (by omega), if_pos (by omega)]
  rw [e0, e1, e2, e3]
  simp [dateAt, closeAt, e0, e1, e2, e3]

theorem filterMap_eq_map_of_mem {α β : Type} (l : List α) (f : α → Option β)
    (g : α → β) (h : ∀ a ∈ l, f a = some (g a)) :
    l.filterMap f = l.map g := by
  induction l with
  | nil => rfl
  | cons a l ih =>
    rw [List.filterMap_cons_some (h a (List.mem_cons_self a l)), List.map_cons,
      ih (fun b hb => h b (List.mem_cons_of_mem a hb))]

/-- The row of index j of the output of make_features, expressed from the
input table: it comes from input position j + 3. -/
def expectedRow (rows : List PriceRecord) (j : ℕ) : FeatureRow :=
  ⟨dateAt rows (j + 3), closeAt rows (j + 3), j + 3,
   closeAt rows (j + 2), closeAt rows (j + 1), closeAt rows j⟩

theorem make_features_eq (rows : List PriceRecord) :
    make_features rows = (List.range (rows.length - 3)).map (expectedRow rows) := by
  unfold make_features
  rcases le_or_lt rows.length 3 with h | h
  · have h0 : rows.length - 3 = 0 := by omega
    rw [h0]
    simp only [List.range_zero, List.map_nil]
    rw [List.filterMap_eq_nil_iff]
    intro i hi
    exact featureAt_eq_none rows i (by
      have := List.mem_range.mp hi
      omega)
  · obtain ⟨m, hm⟩ : ∃ m, rows.length = 3 + m := ⟨rows.length - 3, by omega⟩
    rw [hm]
    have h2 : 3 + m - 3 = m := by omega
    rw [h2, List.range_add, List.filterMap_append, List.filterMap_map]
    have hnil : (List.range 3).filterMap (featureAt rows) = [] := by
      rw [List.filterMap_eq_nil_iff]
      intro i hi
      exact featureAt_eq_none rows i (List.mem_range.mp hi)
    rw [hnil, List.nil_append]
    apply filterMap_eq_map_of_mem
    intro j hj
    have hjm : j < m := List.mem_range.mp hj
    have hlt : 3 + j < rows.length := by omega
    have := featureAt_eq_some rows (3 + j) (by omega) hlt
    simp only [Function.comp_apply]
    rw [this]
    unfold expectedRow
    have ha : 3 + j = j + 3 := by omega
    have hb : j + 3 - 1 = j + 2 := by omega
    have hc : j + 3 - 2 = j + 1 := by omega
    have hd : j + 3 - 3 = j := by omega
    rw [ha, hb, hc, hd]

theorem make_features_length (rows : List PriceRecord) :
    (make_features rows).length = rows.length - 3 := by
  rw [make_features_eq, List.length_map, List.length_range]

theorem make_features_getElem (rows : List PriceRecord) (j : ℕ)
    (hj : j + 3 < rows.length) :
    (make_features rows)[j]? = some (expectedRow rows j) := by
  rw [make_features_eq, List.getElem?_map, List.getElem?_range (by omega)]
  rfl

/-- The error taxonomy of the run, as the spec names the failures the
script can hit: dataUnavailable is never produced by the code (no empty
check exists in download_data); insufficientData is the ValueError that
sklearn train_test_split raises when a split side would be empty;
modelNotFound is the FileNotFoundError of joblib.load; usageError is
argparse ap.error; invalidObject is the AttributeError of calling predict
on a loaded object that is not a pipeline; indexError is the failure of
pred[0] on an empty prediction. -/
inductive AppError where
  | dataUnavailable
  | insufficientData
  | modelNotFound
  | usageError
  | invalidObject
  | indexError
deriving DecidableEq

/-- The test-set size chosen by sklearn train_test_split for a float
test fraction t: ceil(n * t). -/
def n_test (n : ℕ) (t : ℚ) : ℕ := (⌈(n : ℚ) * t⌉).toNat

/-- The train-set size chosen by sklearn train_test_split: the remaining
rows, n - ceil(n * t). -/
def n_train (n : ℕ) (t : ℚ) : ℕ := n - n_test n t

/-- train_test_split(X, y, test_size, shuffle=False): with shuffling off
the training set is the prefix of n_train rows and the test set the
remaining suffix; sklearn raises ValueError when either side would be
empty. -/
def train_test_split (rows : List FeatureRow) (t : ℚ) :
    Except AppError (List FeatureRow × List FeatureRow) :=
  if n_train rows.length t = 0 ∨ n_test rows.length t = 0 then
    .error .insufficientData
  else
    .ok (rows.take (n_train rows.length t), rows.drop (n_train rows.length t))

theorem train_test_split_error (rows : List FeatureRow) (t : ℚ)
    (h : n_train rows.length t = 0 ∨ n_test rows.length t = 0) :
    train_test_split rows t = .error .insufficientData := by
  unfold train_test_split
  rw [if_pos h]

theorem train_test_split_ok (rows : List FeatureRow) (t : ℚ)
    (h : ¬(n_train rows.length t = 0 ∨ n_test rows.length t = 0)) :
    train_test_split rows t =
      .ok (rows.take (n_train rows.length t),
           rows.drop (n_train rows.length t)) := by
  unfold train_test_split
  rw [if_neg h]

/-- Mean of a column, as StandardScaler computes it. -/
def colMean (xs : List ℚ) : ℚ := xs.sum / xs.length

/-- Population variance of a column (ddof = 0), as StandardScaler
computes it; the stored scale is its square root, so the pair
(mean, variance) determines the scaling parameters exactly. -/
def colVar (xs : List ℚ) : ℚ :=
  ((xs.map (fun x => (x - colMean xs) ^ 2)).sum) / xs.length

/-- The fitted parameters of the StandardScaler step over the four
feature columns Day, Close_lag1, Close_lag2, Close_lag3. -/
structure ScalerParams where
  meanDay : ℚ
  meanLag1 : ℚ
  meanLag2 : ℚ
  meanLag3 : ℚ
  varDay : ℚ
  varLag1 : ℚ
  varLag2 : ℚ
  varLag3 : ℚ
deriving DecidableEq

/-- pipe.fit on the scaler step: statistics of the four feature columns
of the rows it is given (the training partition). -/
def fitScaler (train : List FeatureRow) : ScalerParams :=
  ⟨colMean (train.map (fun r => (r.day : ℚ))),
   colMean (train.map FeatureRow.lag1),
   colMean (train.map FeatureRow.lag2),
   colMean (train.map FeatureRow.lag3),
   colVar (train.map (fun r => (r.day : ℚ))),
   colVar (train.map FeatureRow.lag1),
   colVar (train.map FeatureRow.lag2),
   colVar (train.map FeatureRow.lag3)⟩

/-- What train_model produces that the verified claims mention: the
fitted scaling statistics and the realized train and test partitions.
The OLS coefficient fit and the MAE and R2 metrics that follow operate
on these same partitions and are real-valued; they are not needed by any
claim below. -/
structure TrainResult where
  scaler : ScalerParams
  trainRows : List FeatureRow
  testRows : List FeatureRow
deriving DecidableEq

/-- train_model(df, test_size): chronological split via train_test_split
with shuffle=False, then pipe.fit(X_train, y_train), where the pipeline
scaler is fitted on X_train only. -/
def train_model (rows : List FeatureRow) (t : ℚ) : Except AppError TrainResult :=
  match train_test_split rows t with
  | .error e => .error e
  | .ok (tr, te) => .ok ⟨fitScaler tr, tr, te⟩

theorem train_model_error (rows : List FeatureRow) (t : ℚ)
    (h : n_train rows.length t = 0 ∨ n_test rows.length t = 0) :
    train_model rows t = .error .insufficientData := by
  unfold train_model
  rw [train_test_split_error rows t h]

theorem train_model_ok (rows : List FeatureRow) (t : ℚ)
    (h : ¬(n_train rows.length t = 0 ∨ n_test rows.length t = 0)) :
    train_model rows t =
      .ok ⟨fitScaler (rows.take (n_train rows.length t)),
           rows.take (n_train rows.length t),
           rows.drop (n_train rows.length t)⟩ := by
  unfold train_model
  rw [train_test_split_ok rows t h]

/-- The scaling parameters train_model fits, when it succeeds. -/
def scalerOf (rows : List FeatureRow) (t : ℚ) : Except AppError ScalerParams :=
  (train_model rows t).map TrainResult.scaler

/-- The training workflow of main up to the fitted result: fetch, build
features, train. The model dump and the plot follow on success and the
metrics print; an error from any step propagates to the process exit
with no retry. -/
def runTrainFlow (provider : List RawRecord) (t : ℚ) :
    Except AppError TrainResult :=
  train_model (make_features (download_data provider)) t

theorem floor_split_point (n : ℕ) (t : ℚ) (h0 : 0 ≤ t) (h1 : t ≤ 1) :
    (⌊(n : ℚ) * (1 - t)⌋).toNat = n_train n t := by
  have hc0 : 0 ≤ ⌈(n : ℚ) * t⌉ := by
    apply Int.ceil_nonneg
    positivity
  have hcn : ⌈(n : ℚ) * t⌉ ≤ (n : ℤ) := by
    have hle : (n : ℚ) * t ≤ ((n : ℤ) : ℚ) := by
      push_cast
      nlinarith [Nat.cast_nonneg (α := ℚ) n]
    calc ⌈(n : ℚ) * t⌉ ≤ ⌈((n : ℤ) : ℚ)⌉ := Int.ceil_le_ceil hle
      _ = (n : ℤ) := Int.ceil_intCast _
  have hfl : ⌊(n : ℚ) * (1 - t)⌋ = (n : ℤ) - ⌈(n : ℚ) * t⌉ := by
    have he : (n : ℚ) * (1 - t) = -((n : ℚ) * t - ((n : ℤ) : ℚ)) := by
      push_cast
      ring
    rw [he, Int.floor_neg, Int.ceil_sub_int]
    omega
  rw [hfl]
  unfold n_train n_test
  omega

theorem n_test_pos (n : ℕ) (t : ℚ) (hn : 0 < n) (ht : 0 < t) :
    0 < n_test n t := by
  unfold n_test
  have hpos : (0 : ℚ) < (n : ℚ) * t := by
    apply mul_pos _ ht
    exact_mod_cast hn
  have := Int.ceil_pos.mpr hpos
  omega

/-- A feature vector of the four columns Day, Close_lag1, Close_lag2,
Close_lag3, in the order train_model selects them. -/
structure Feat4 where
  day : ℚ
  lag1 : ℚ
  lag2 : ℚ
  lag3 : ℚ
deriving DecidableEq

/-- The four feature cells of a Feature Row, as X is selected from the
frame. -/
def featVec (fr : FeatureRow) : Feat4 :=
  ⟨(fr.day : ℚ), fr.lag1, fr.lag2, fr.lag3⟩

/-- A Trained Pipeline as persisted: the scaler means and scales
(scale is the square root of the fitted variance, stored directly here
since the square root leaves the rationals), and the linear model
coefficients and intercept over exactly the 4 features. -/
structure FittedPipeline where
  mean : Feat4
  scale : Feat4
  coef : Feat4
  intercept : ℚ
deriving DecidableEq

/-- pipe.predict on one feature vector: standardize each cell with the
fitted mean and scale, then apply the linear model. -/
def pipePredict (p : FittedPipeline) (x : Feat4) : ℚ :=
  p.intercept
    + p.coef.day * ((x.day - p.mean.day) / p.scale.day)
    + p.coef.lag1 * ((x.lag1 - p.mean.lag1) / p.scale.lag1)
    + p.coef.lag2 * ((x.lag2 - p.mean.lag2) / p.scale.lag2)
    + p.coef.lag3 * ((x.lag3 - p.mean.lag3) / p.scale.lag3)

/-- An object graph that joblib can deserialize from a file: either a
Trained Pipeline of the expected shape, or any other picklable object
(tagged by a number); joblib itself attaches no schema to the file. -/
inductive StoredObject where
  | pipeline (p : FittedPipeline)
  | other (tag : ℕ)
deriving DecidableEq

/-- Whether a deserialized object is a pipeline of the expected shape
(scaler plus linear model over exactly 4 features). The script never
performs this check. -/
def isExpectedShape (o : StoredObject) : Bool :=
  match o with
  | .pipeline _ => true
  | .other _ => false

/-- The filesystem as joblib sees it: paths mapped to the object graphs
serialized under them. -/
abbrev Store := List (String × StoredObject)

/-- Path lookup: the most recent write under a path wins. -/
def storeLookup : Store → String → Option StoredObject
  | [], _ => none
  | (p, v) :: rest, q => if p = q then some v else storeLookup rest q

/-- joblib.dump(obj, path): writes the serialized object at the path,
silently overwriting a previous file. -/
def joblibDump (store : Store) (path : String) (obj : StoredObject) : Store :=
  (path, obj) :: store

/-- joblib.load(path): FileNotFoundError when the path does not exist,
otherwise the deserialized object, whatever its shape. -/
def joblibLoad (store : Store) (path : String) : Except AppError StoredObject :=
  match storeLookup store path with
  | none => .error .modelNotFound
  | some v => .ok v

/-- The parsed CLI flags. model_path is none when the flag is absent. -/
structure Args where
  ticker : String
  period : String
  test_size : ℚ
  model_path : Option String
  predict : Bool
deriving DecidableEq

/-- An observable external effect of a run; the only one the claims need
is the network call to the data provider. -/
inductive Event where
  | fetch (ticker : String) (period : String)
deriving DecidableEq

/-- What a successful run prints: the single forecast in predict mode,
or the fitted result (whose metrics are printed) in train mode. -/
inductive MainOut where
  | forecast (v : ℚ)
  | trained (r : TrainResult)
deriving DecidableEq

/-- df.tail(n): the last n rows (all rows when fewer exist). -/
def lastN {α : Type} (n : ℕ) (l : List α) : List α := l.drop (l.length - n)

/-- The 4-row window predict mode builds its one Feature Row from:
download_data(args.ticker, period="10d").tail(4). -/
def theWindow (fetched : List PriceRecord) : List PriceRecord := lastN 4 fetched

/-- The predict-mode feature pipeline applied to the fetched table:
the tail(4) window, make_features, tail(1). -/
def predictFeatures (fetched : List PriceRecord) : List FeatureRow :=
  lastN 1 (make_features (theWindow fetched))

/-- The one Feature Row predict mode uses, expressed from the window: it
is row 3 of the 4-row window, so its Day cell is 3. -/
def predictRowSpec (fetched : List PriceRecord) : FeatureRow :=
  ⟨dateAt (theWindow fetched) 3, closeAt (theWindow fetched) 3, 3,
   closeAt (theWindow fetched) 2, closeAt (theWindow fetched) 1,
   closeAt (theWindow fetched) 0⟩

/-- The predict branch of main: the argparse usage check on model_path
(Python treats a missing flag and an empty string alike as falsy) runs
first and aborts before joblib.load and before the network fetch; then
the model loads, the short window is fetched and the single Feature Row
is predicted. The event list records the network calls made, in order. -/
def runPredictMode (args : Args) (store : Store) (provider : List RawRecord) :
    Except AppError MainOut × List Event :=
  if args.model_path.getD "" = "" then
    (.error .usageError, [])
  else
    match joblibLoad store (args.model_path.getD "") with
    | .error e => (.error e, [])
    | .ok obj =>
      let fetched := download_data provider
      let latest := predictFeatures fetched
      match obj, latest with
      | .pipeline p, [fr] =>
        (.ok (.forecast (pipePredict p (featVec fr))), [.fetch args.ticker "10d"])
      | .pipeline _, _ => (.error .indexError, [.fetch args.ticker "10d"])
      | .other _, _ => (.error .invalidObject, [.fetch args.ticker "10d"])

/-- main: dispatch on the predict flag; train mode fetches the full
period and runs the training workflow. -/
def runMain (args : Args) (store : Store) (provider : List RawRecord) :
    Except AppError MainOut × List Event :=
  if args.predict then
    runPredictMode args store provider
  else
    match runTrainFlow provider args.test_size with
    | .error e => (.error e, [.fetch args.ticker args.period])
    | .ok r => (.ok (.trained r), [.fetch args.ticker args.period])

/-- A concrete provider table of five complete rows, for witnesses. -/
def exRaw : List RawRecord :=
  [⟨0, some 1, some 2, some 1, some 10, some 100⟩,
   ⟨1, some 1, some 2, some 1, some 11, some 100⟩,
   ⟨2, some 1, some 2, some 1, some 12, some 100⟩,
   ⟨3, some 1, some 2, some 1, some 13, some 100⟩,
   ⟨4, some 1, some 2, some 1, some 14, some 100⟩]

/-- A concrete price table of five rows, for witnesses. -/
def exPrices : List PriceRecord :=
  [⟨0, 1, 2, 1, 10, 100⟩, ⟨1, 1, 2, 1, 11, 100⟩, ⟨2, 1, 2, 1, 12, 100⟩,
   ⟨3, 1, 2, 1, 13, 100⟩, ⟨4, 1, 2, 1, 14, 100⟩]

/-- A single concrete Feature Row, for the split counterexample. -/
def sampleFR : FeatureRow := ⟨0, 10, 0, 1, 2, 3⟩

/-- A concrete feature table of five rows with increasing dates. -/
def exFRs : List FeatureRow :=
  [⟨0, 10, 0, 9, 8, 7⟩, ⟨1, 11, 1, 10, 9, 8⟩, ⟨2, 12, 2, 11, 10, 9⟩,
   ⟨3, 13, 3, 12, 11, 10⟩, ⟨4, 14, 4, 13, 12, 11⟩]

/-- The same table with a different final (test-partition) row. -/
def exFRs2 : List FeatureRow :=
  [⟨0, 10, 0, 9, 8, 7⟩, ⟨1, 11, 1, 10, 9, 8⟩, ⟨2, 12, 2, 11, 10, 9⟩,
   ⟨3, 13, 3, 12, 11, 10⟩, ⟨4, 99, 4, 50, 51, 52⟩]

/-- A concrete Trained Pipeline, for witnesses. -/
def samplePipe : FittedPipeline := ⟨⟨0, 0, 0, 0⟩, ⟨1, 1, 1, 1⟩, ⟨1, 1, 1, 1⟩, 0⟩

/-- Claim C1: on an input of N chronologically sorted complete Price
Records, make_features returns exactly N - 3 Feature Rows (zero when
N ≤ 3, since truncated subtraction gives 0), and the row of output index
j comes from input position j + 3: its Day cell equals that original
0-based position, its date and target are those of input row j + 3, and
its Close_lag1, Close_lag2, Close_lag3 cells are the close prices at
input positions j + 2, j + 1 and j, that is at index - 1, index - 2 and
index - 3. -/
theorem c1_feature_builder_shape (rows : List PriceRecord)
    (hs : chronoSorted rows) :
    (make_features rows).length = rows.length - 3 ∧
    ∀ j, j + 3 < rows.length →
      (make_features rows)[j]? =
        some ⟨dateAt rows (j + 3), closeAt rows (j + 3), j + 3,
              closeAt rows (j + 2), closeAt rows (j + 1), closeAt rows j⟩ :=
  ⟨make_features_length rows, fun j hj => make_features_getElem rows j hj⟩

/-- Witness for C1 at a concrete sorted 5-row table. -/
theorem c1_witness :
    chronoSorted exPrices ∧
    (make_features exPrices).length = exPrices.length - 3 :=
  ⟨by decide, (c1_feature_builder_shape exPrices (by decide)).1⟩

theorem n_test_one_half : n_test 1 (1 / 2) = 1 := by
  unfold n_test
  have h : ((1 : ℕ) : ℚ) * (1 / 2) = 1 / 2 := by push_cast; ring
  have hc : ⌈(1 / 2 : ℚ)⌉ = 1 := by
    rw [Int.ceil_eq_iff]
    norm_num
  rw [h, hc]
  rfl

theorem n_train_one_half : n_train 1 (1 / 2) = 0 := by
  unfold n_train
  rw [n_test_one_half]

theorem n_test_five : n_test 5 (1 / 5) = 1 := by
  unfold n_test
  have h : ((5 : ℕ) : ℚ) * (1 / 5) = 1 := by push_cast; ring
  rw [h, Int.ceil_one]
  rfl

theorem n_train_five : n_train 5 (1 / 5) = 4 := by
  unfold n_train
  rw [n_test_five]

theorem n_test_zero_rows (t : ℚ) : n_test 0 t = 0 := by
  unfold n_test
  rw [Nat.cast_zero, zero_mul, Int.ceil_zero]
  rfl

theorem floor_five_fifths : (⌊((5 : ℕ) : ℚ) * (1 - 1 / 5)⌋).toNat = 4 := by
  have h : ⌊((5 : ℕ) : ℚ) * (1 - 1 / 5)⌋ = 4 := by push_cast; norm_num
  rw [h]
  rfl

/-- Counterexample to claim C2 as stated: its hypotheses hold at the
one-row feature table with test fraction 1/2 (the sequence is non-empty
and the fraction lies in (0,1)), the claimed training-prefix length
floor(1 * (1 - 1/2)) is 0, yet train_model does not partition the rows:
the underlying train_test_split raises the empty-train-set ValueError
instead of returning the empty prefix and full suffix. -/
theorem c2_counterexample :
    (0 < (1 : ℚ) / 2 ∧ (1 : ℚ) / 2 < 1 ∧ [sampleFR] ≠ ([] : List FeatureRow)) ∧
    train_test_split [sampleFR] (1 / 2) = .error .insufficientData ∧
    train_test_split [sampleFR] (1 / 2) ≠
      .ok ([sampleFR].take (⌊(([sampleFR] : List FeatureRow).length : ℚ) * (1 - 1 / 2)⌋).toNat,
           [sampleFR].drop (⌊(([sampleFR] : List FeatureRow).length : ℚ) * (1 - 1 / 2)⌋).toNat) := by
  have herr : train_test_split [sampleFR] (1 / 2) = .error .insufficientData :=
    train_test_split_error [sampleFR] (1 / 2) (by
      rw [List.length_singleton]
      exact Or.inl n_train_one_half)
  refine ⟨⟨by norm_num, by norm_num, by simp⟩, herr, ?_⟩
  intro h
  rw [herr] at h
  exact Except.noConfusion h

/-- Claim C2 as amended: the claim as stated fails when the prefix
length floor(len * (1 - t)) is 0, where the code raises instead of
partitioning; whenever that length is at least 1, train_test_split
partitions the rows into the contiguous training prefix of exactly
floor(len * (1 - t)) rows and the contiguous test suffix of the
remaining rows, with no shuffling, and on a chronologically sorted table
every training date strictly precedes every test date. -/
theorem c2_chronological_split (rows : List FeatureRow) (t : ℚ)
    (h0 : 0 < t) (h1 : t < 1) (hne : rows ≠ [])
    (htr : 1 ≤ (⌊(rows.length : ℚ) * (1 - t)⌋).toNat)
    (hs : frSorted rows) :
    train_test_split rows t =
      .ok (rows.take (⌊(rows.length : ℚ) * (1 - t)⌋).toNat,
           rows.drop (⌊(rows.length : ℚ) * (1 - t)⌋).toNat) ∧
    ∀ a ∈ rows.take (⌊(rows.length : ℚ) * (1 - t)⌋).toNat,
      ∀ b ∈ rows.drop (⌊(rows.length : ℚ) * (1 - t)⌋).toNat, a.date < b.date := by
  have hk : (⌊(rows.length : ℚ) * (1 - t)⌋).toNat = n_train rows.length t :=
    floor_split_point rows.length t (le_of_lt h0) (le_of_lt h1)
  have hn : 0 < rows.length := List.length_pos.mpr hne
  have hte : 0 < n_test rows.length t := n_test_pos _ _ hn h0
  rw [hk] at htr ⊢
  have hcond : ¬(n_train rows.length t = 0 ∨ n_test rows.length t = 0) := by
    omega
  constructor
  · exact train_test_split_ok rows t hcond
  · have hsp := hs
    rw [← List.take_append_drop (n_train rows.length t) rows] at hsp
    exact (List.pairwise_append.mp hsp).2.2

/-- Witness for C2 (amended) at a concrete sorted 5-row table with test
fraction 1/5: the prefix has floor(5 * 4/5) = 4 rows. -/
theorem c2_witness :
    (0 < (1 : ℚ) / 5 ∧ (1 : ℚ) / 5 < 1 ∧ exFRs ≠ [] ∧
      1 ≤ (⌊(exFRs.length : ℚ) * (1 - 1 / 5)⌋).toNat ∧ frSorted exFRs) ∧
    train_test_split exFRs (1 / 5) =
      .ok (exFRs.take (⌊(exFRs.length : ℚ) * (1 - 1 / 5)⌋).toNat,
           exFRs.drop (⌊(exFRs.length : ℚ) * (1 - 1 / 5)⌋).toNat) :=
  ⟨⟨by norm_num, by norm_num, by simp [exFRs],
    by rw [show exFRs.length = 5 from rfl, floor_five_fifths]; omega,
    by decide⟩,
   (c2_chronological_split exFRs (1 / 5) (by norm_num) (by norm_num)
      (by simp [exFRs])
      (by rw [show exFRs.length = 5 from rfl, floor_five_fifths]; omega)
      (by decide)).1⟩

/-- Claim C3: the standardization parameters of the fitted pipeline are
a function of the training partition only. First part: two feature
tables of the same length that agree on the training prefix produce
identical scaling parameters, whatever their test suffixes hold (no
leakage from test into scaling). Second part: the fitted parameters are
exactly the column statistics of the training prefix. Third part:
train_model is a pure function, so running it twice on the same input
yields bit-identical parameters. -/
theorem c3_scaler_from_training_only (rows rows2 : List FeatureRow) (t : ℚ)
    (hlen : rows.length = rows2.length)
    (hpre : rows.take (n_train rows.length t) =
            rows2.take (n_train rows2.length t)) :
    scalerOf rows t = scalerOf rows2 t ∧
    (∀ res, train_model rows t = .ok res →
      res.scaler = fitScaler (rows.take (n_train rows.length t))) ∧
    train_model rows t = train_model rows t := by
  refine ⟨?_, ?_, rfl⟩
  · by_cases hc : n_train rows.length t = 0 ∨ n_test rows.length t = 0
    · have hc2 : n_train rows2.length t = 0 ∨ n_test rows2.length t = 0 := by
        rw [← hlen]
        exact hc
      unfold scalerOf
      rw [train_model_error rows t hc, train_model_error rows2 t hc2]
    · have hc2 : ¬(n_train rows2.length t = 0 ∨ n_test rows2.length t = 0) := by
        rw [← hlen]
        exact hc
      unfold scalerOf
      rw [train_model_ok rows t hc, train_model_ok rows2 t hc2]
      simp only [Except.map]
      rw [hpre]
  · intro res hres
    by_cases hc : n_train rows.length t = 0 ∨ n_test rows.length t = 0
    · rw [train_model_error rows t hc] at hres
      exact Except.noConfusion hres
    · rw [train_model_ok rows t hc] at hres
      injection hres with h
      rw [← h]

/-- Witness for C3 at two concrete 5-row tables agreeing on the 4-row
training prefix and differing in the test row, with test fraction
1/5. -/
theorem c3_witness :
    (exFRs.length = exFRs2.length ∧
      exFRs.take (n_train exFRs.length (1 / 5)) =
        exFRs2.take (n_train exFRs2.length (1 / 5))) ∧
    scalerOf exFRs (1 / 5) = scalerOf exFRs2 (1 / 5) :=
  ⟨⟨rfl, by
      rw [show exFRs.length = 5 from rfl, show exFRs2.length = 5 from rfl,
        n_train_five]
      decide⟩,
   (c3_scaler_from_training_only exFRs exFRs2 (1 / 5) rfl (by
      rw [show exFRs.length = 5 from rfl, show exFRs2.length = 5 from rfl,
        n_train_five]
      decide)).1⟩

/-- Claim C4: whenever the requested fraction leaves either split side
empty (sklearn computes n_test = ceil(len * t) and n_train as the rest),
train_model fails with the InsufficientData condition (the ValueError of
train_test_split) instead of proceeding; in particular an input with too
few raw rows to form even one lag-complete Feature Row (N ≤ 3, so
make_features is empty) always fails this way. -/
theorem c4_insufficient_data (rows : List FeatureRow) (t : ℚ)
    (h : n_train rows.length t = 0 ∨ n_test rows.length t = 0) :
    train_model rows t = .error .insufficientData ∧
    ∀ raw : List PriceRecord, raw.length ≤ 3 →
      train_model (make_features raw) t = .error .insufficientData := by
  refine ⟨train_model_error rows t h, ?_⟩
  intro raw hraw
  apply train_model_error
  have hlen : (make_features raw).length = 0 := by
    rw [make_features_length]
    omega
  rw [hlen]
  exact Or.inr (n_test_zero_rows t)

/-- Witness for C4 at the empty feature table with test fraction
1/5. -/
theorem c4_witness :
    (n_train (List.length ([] : List FeatureRow)) (1 / 5) = 0 ∨
      n_test (List.length ([] : List FeatureRow)) (1 / 5) = 0) ∧
    train_model [] (1 / 5) = .error .insufficientData :=
  ⟨Or.inr (n_test_zero_rows (1 / 5)),
   (c4_insufficient_data [] (1 / 5) (Or.inr (n_test_zero_rows (1 / 5)))).1⟩

/-- Counterexample to claim C5 as stated: when the provider returns no
rows, download_data returns the empty table without raising anything
(it has no empty-result check, and its result type cannot even carry an
error), the empty table flows into make_features and train_model, and
the run fails only inside the train/test split, with the
InsufficientData condition, not with a DataUnavailable error raised
before the split is attempted. -/
theorem c5_counterexample :
    download_data [] = [] ∧
    runTrainFlow [] (1 / 5) = .error .insufficientData ∧
    runTrainFlow [] (1 / 5) ≠ .error .dataUnavailable := by
  have hflow : runTrainFlow [] (1 / 5) = .error .insufficientData := by
    unfold runTrainFlow
    rw [show download_data [] = [] from rfl,
      show make_features [] = [] from rfl]
    apply train_model_error
    rw [List.length_nil]
    exact Or.inr (n_test_zero_rows (1 / 5))
  refine ⟨rfl, hflow, ?_⟩
  intro h
  rw [hflow] at h
  injection h with h2
  exact AppError.noConfusion h2

/-- Claim C5 as amended: an empty fetch is not rejected by
download_data; the training run on an empty provider result fails with
the InsufficientData split error (and with no DataUnavailable error
anywhere), propagated to the caller without retry. -/
theorem c5_empty_fetch_fails_at_split (provider : List RawRecord) (t : ℚ)
    (h : download_data provider = []) :
    runTrainFlow provider t = .error .insufficientData ∧
    runTrainFlow provider t ≠ .error .dataUnavailable := by
  have hflow : runTrainFlow provider t = .error .insufficientData := by
    unfold runTrainFlow
    rw [h, show make_features [] = [] from rfl]
    apply train_model_error
    rw [List.length_nil]
    exact Or.inr (n_test_zero_rows t)
  refine ⟨hflow, ?_⟩
  intro h2
  rw [hflow] at h2
  injection h2 with h3
  exact AppError.noConfusion h3

/-- Witness for C5 (amended) at the empty provider table. -/
theorem c5_witness :
    download_data [] = [] ∧
    runTrainFlow [] (2 / 10) = .error .insufficientData :=
  ⟨rfl, (c5_empty_fetch_fails_at_split [] (2 / 10) rfl).1⟩

/-- A store holding, under the model path, a deserializable object that
is not a pipeline of the expected shape. -/
def wrongStore : Store := [("models/aapl_lr.pkl", StoredObject.other 7)]

/-- Counterexample to claim C6 as stated: the path exists and its
content is a valid serialized object that is not a pipeline of the
expected shape, so the claim requires load to fail with ModelNotFound;
but joblib.load performs no shape validation and returns the object
successfully. -/
theorem c6_counterexample :
    joblibLoad wrongStore "models/aapl_lr.pkl" = .ok (StoredObject.other 7) ∧
    isExpectedShape (StoredObject.other 7) = false ∧
    joblibLoad wrongStore "models/aapl_lr.pkl" ≠ .error .modelNotFound := by
  have hl : storeLookup wrongStore "models/aapl_lr.pkl" =
      some (StoredObject.other 7) := by
    unfold wrongStore storeLookup
    rw [if_pos rfl]
  have hload : joblibLoad wrongStore "models/aapl_lr.pkl" =
      .ok (StoredObject.other 7) := by
    unfold joblibLoad
    rw [hl]
  refine ⟨hload, rfl, ?_⟩
  intro h
  rw [hload] at h
  exact Except.noConfusion h

/-- Claim C6 as amended: joblib.load fails with the ModelNotFound
condition exactly when the path does not exist in the store; any object
present under the path is deserialized and returned as-is, with no check
that it is a pipeline of the expected shape (a wrong-shape object only
fails later, when predict is called on it). -/
theorem c6_load_without_validation (store : Store) (path : String) :
    (joblibLoad store path = .error .modelNotFound ↔
      storeLookup store path = none) ∧
    ∀ v, storeLookup store path = some v → joblibLoad store path = .ok v := by
  constructor
  · unfold joblibLoad
    cases h : storeLookup store path
    · simp
    · simp
  · intro v hv
    unfold joblibLoad
    rw [hv]

/-- Witness for C6 (amended): loading a stored pipeline returns it. -/
theorem c6_witness :
    joblibLoad [("m", StoredObject.pipeline samplePipe)] "m" =
      .ok (StoredObject.pipeline samplePipe) :=
  (c6_load_without_validation [("m", StoredObject.pipeline samplePipe)] "m").2
    (StoredObject.pipeline samplePipe) (by
      unfold storeLookup
      rw [if_pos rfl])

/-- Claim C7: whenever the predict flag is set and model_path is absent
(or empty, which the Python truthiness test treats the same), main exits
with the argparse usage error (a non-zero process exit) and performs no
network call: the event trace of the run is empty. -/
theorem c7_usage_error_before_fetch (args : Args) (store : Store)
    (provider : List RawRecord)
    (hp : args.predict = true) (hm : args.model_path.getD "" = "") :
    runMain args store provider = (.error .usageError, []) := by
  unfold runMain
  rw [hp, if_pos rfl]
  unfold runPredictMode
  rw [if_pos hm]

/-- Concrete arguments invoking predict mode without a model path. -/
def exArgsNoPath : Args := ⟨"AAPL", "5y", 1 / 5, none, true⟩

/-- Witness for C7 at concrete arguments. -/
theorem c7_witness :
    (exArgsNoPath.predict = true ∧ exArgsNoPath.model_path.getD "" = "") ∧
    runMain exArgsNoPath [] [] = (.error .usageError, []) :=
  ⟨⟨rfl, rfl⟩, c7_usage_error_before_fetch exArgsNoPath [] [] rfl rfl⟩

theorem window_length (fetched : List PriceRecord) (h : 4 ≤ fetched.length) :
    (theWindow fetched).length = 4 := by
  unfold theWindow lastN
  rw [List.length_drop]
  omega

theorem make_features_window (fetched : List PriceRecord)
    (h : 4 ≤ fetched.length) :
    make_features (theWindow fetched) = [predictRowSpec fetched] := by
  rw [make_features_eq, window_length fetched h]
  rfl

theorem predictFeatures_eq (fetched : List PriceRecord)
    (h : 4 ≤ fetched.length) :
    predictFeatures fetched = [predictRowSpec fetched] := by
  unfold predictFeatures
  rw [make_features_window fetched h]
  rfl

/-- Claim C8: in predict mode, whenever the fetched window (after
dropping incomplete rows) has at least 4 rows and the loaded object is a
pipeline, make_features on the tail(4) window builds exactly one Feature
Row, tail(1) returns that same row, and the run prints exactly one
scalar forecast: the pipeline applied to that row, after the one
network fetch of the short "10d" window. -/
theorem c8_predict_single_row (args : Args) (store : Store)
    (provider : List RawRecord) (p : FittedPipeline) (path : String)
    (hp : args.predict = true) (hmp : args.model_path = some path)
    (hpath : path ≠ "")
    (hload : storeLookup store path = some (StoredObject.pipeline p))
    (hlen : 4 ≤ (download_data provider).length) :
    (make_features (theWindow (download_data provider))).length = 1 ∧
    predictFeatures (download_data provider) =
      [predictRowSpec (download_data provider)] ∧
    runMain args store provider =
      (.ok (.forecast (pipePredict p
          (featVec (predictRowSpec (download_data provider))))),
       [.fetch args.ticker "10d"]) := by
  have hw := make_features_window (download_data provider) hlen
  have hpf := predictFeatures_eq (download_data provider) hlen
  refine ⟨by rw [hw, List.length_singleton], hpf, ?_⟩
  unfold runMain
  rw [hp, if_pos rfl]
  unfold runPredictMode
  rw [hmp, show (some path).getD "" = path from rfl, if_neg hpath]
  rw [show joblibLoad store path = .ok (StoredObject.pipeline p) from by
    unfold joblibLoad
    rw [hload]]
  simp only [hpf]

/-- Claim C9: in predict mode the single Feature Row used for the
forecast is row 3 of the truncated 4-row window, so its Day cell always
equals 3, for every provider table with at least 4 complete rows; in
particular, whenever the full training history has length L > 4, the
same (most recent) date received the global 0-based day index L - 1
during training, which the predict-time Day never equals. -/
theorem c9_predict_day_index (provider : List RawRecord)
    (hlen : 4 ≤ (download_data provider).length) :
    predictFeatures (download_data provider) =
      [predictRowSpec (download_data provider)] ∧
    (predictRowSpec (download_data provider)).day = 3 ∧
    ∀ L : ℕ, 4 < L → (predictRowSpec (download_data provider)).day ≠ L - 1 := by
  refine ⟨predictFeatures_eq (download_data provider) hlen, rfl, ?_⟩
  intro L hL
  rw [show (predictRowSpec (download_data provider)).day = 3 from rfl]
  omega

/-- Witness for C8 at a concrete provider table of 5 complete rows and
a concrete stored pipeline. -/
theorem c8_witness :
    ((Args.mk "AAPL" "10d" (1 / 5) (some "m") true).predict = true ∧
      (Args.mk "AAPL" "10d" (1 / 5) (some "m") true).model_path = some "m" ∧
      "m" ≠ "" ∧
      storeLookup [("m", StoredObject.pipeline samplePipe)] "m" =
        some (StoredObject.pipeline samplePipe) ∧
      4 ≤ (download_data exRaw).length) ∧
    (make_features (theWindow (download_data exRaw))).length = 1 :=
  ⟨⟨rfl, rfl, by decide, by
      unfold storeLookup
      rw [if_pos rfl], by decide⟩,
   (c8_predict_single_row (Args.mk "AAPL" "10d" (1 / 5) (some "m") true)
      [("m", StoredObject.pipeline samplePipe)] exRaw samplePipe "m"
      rfl rfl (by decide)
      (by
        unfold storeLookup
        rw [if_pos rfl])
      (by decide)).1⟩

/-- Witness for C9 at the same concrete 5-row provider table. -/
theorem c9_witness :
    (4 ≤ (download_data exRaw).length) ∧
    (predictRowSpec (download_data exRaw)).day = 3 :=
  ⟨by decide, (c9_predict_day_index exRaw (by decide)).2.1⟩

/-- Claim C10: dumping a Trained Pipeline at a path and loading that
path back returns a pipeline whose prediction on any fixed input of 4
feature values equals the prediction of the original pipeline; in the
exact rational model the predictions are identical, which implies
equality within any floating-point tolerance. -/
theorem c10_save_load_round_trip (store : Store) (path : String)
    (p : FittedPipeline) (x : Feat4) :
    joblibLoad (joblibDump store path (StoredObject.pipeline p)) path =
      .ok (StoredObject.pipeline p) ∧
    ∀ q : FittedPipeline,
      joblibLoad (joblibDump store path (StoredObject.pipeline p)) path =
        .ok (StoredObject.pipeline q) →
      pipePredict q x = pipePredict p x := by
  have h1 : joblibLoad (joblibDump store path (StoredObject.pipeline p)) path =
      .ok (StoredObject.pipeline p) := by
    unfold joblibLoad joblibDump storeLookup
    rw [if_pos rfl]
  refine ⟨h1, ?_⟩
  intro q hq
  rw [h1] at hq
  injection hq with h2
  injection h2 with h3
  rw [h3]

/-- Witness for C10 at a concrete pipeline, path and input. -/
theorem c10_witness :
    joblibLoad (joblibDump [] "m" (StoredObject.pipeline samplePipe)) "m" =
      .ok (StoredObject.pipeline samplePipe) :=
  (c10_save_load_round_trip [] "m" samplePipe ⟨0, 0, 0, 0⟩).1

end StockLR
